import Mathlib

/-!
# Verification of the demo-call gateway (Saifgotsauce/democaller1)

Shallow embedding of the repository's request-validation and rate-limiting
gateway.  The repository holds three revisions of the same serverless
handler:

* `src/api/trigger-call.js` — the deployed handler (`triggerCallHandler`
  below, with its rate limiter `checkRateLimit`);
* the full revision embedded in `src/README.md` (`readmeHandler`,
  `validatePasswordHash`, `validatePhoneNumber`, `validateBusinessName`,
  `triggerElevenLabsCall` → `readmeUpstream`);
* `src/unnamed/part_000` — a debug revision without rate limiting
  (`part000Handler`).

JavaScript values are modelled as follows: `Date.now()` timestamps and
millisecond durations are `Int`; a possibly-`undefined` string is
`Option String`; the in-memory `Map` used by the rate limiter is an
association list; the outcome of `fetch` (either an HTTP response that was
parsed to JSON, or a thrown transport/parse error carrying a message and a
stack) is the explicit oracle `UpstreamResult` passed to each handler.
-/

/-- JavaScript truthiness of a possibly-`undefined` string: `undefined` and
`""` are falsy (`!x` in the source). -/
def jsFalsy : Option String → Bool
  | none => true
  | some s => s == ""

/-- `s.toLowerCase()`, written over the character list so that it computes
by kernel reduction (the handlers compare ASCII hex tokens). -/
def jsToLower (s : String) : String := String.mk (s.data.map Char.toLower)

/-- `s.trim()`: strip leading and trailing whitespace, written over the
character list so that it computes by kernel reduction. -/
def jsTrim (s : String) : String :=
  String.mk (((s.data.dropWhile Char.isWhitespace).reverse.dropWhile Char.isWhitespace).reverse)

/-- JavaScript `a || b` on two possibly-`undefined` strings: `a` when truthy,
otherwise `b`. -/
def jsOrElse (a b : Option String) : Option String :=
  match a with
  | none => b
  | some s => if s == "" then b else some s

/-- `Math.ceil(x / 1000)` on an integer number of milliseconds: the ceiling
of the exact rational quotient, computed as `-⌊-x / 1000⌋`. -/
def ceilDiv1000 (x : Int) : Int := -((-x).fdiv 1000)

/-- Result object of `checkRateLimit` (trigger-call.js lines 23-38).  In the
source the rejected object carries `retryAfter` and the accepted one does
not; the absent field is `none`. -/
structure AdmitResult where
  allowed : Bool
  remaining : Int
  resetTime : Int
  retryAfter : Option Int
deriving DecidableEq

/-- `entry.requests.filter(time => time > windowStart)`
(trigger-call.js line 17). -/
def pruneRequests (requests : List Int) (windowStart : Int) : List Int :=
  requests.filter (fun time => decide (windowStart < time))

/-- `checkRateLimit` of trigger-call.js lines 7-39 (the README's copy at its
lines 303-339 is textually identical), acting on one key's stored timestamp
list; returns the result object and the list left in the store.  `entry.count`
is maintained equal to `entry.requests.length` in the source, so only the
list is modelled. -/
def checkRateLimit (requests : List Int) (now : Int)
    (maxRequests : Int) (windowMs : Int) : AdmitResult × List Int :=
  let windowStart := now - windowMs
  let surviving := pruneRequests requests windowStart
  if maxRequests ≤ (surviving.length : Int) then
    let oldestRequest := surviving.headI
    let resetTime := oldestRequest + windowMs
    ({ allowed := false, remaining := 0, resetTime := resetTime,
       retryAfter := some (ceilDiv1000 (resetTime - now)) }, surviving)
  else
    ({ allowed := true, remaining := maxRequests - ((surviving.length : Int) + 1),
       resetTime := now + windowMs, retryAfter := none }, surviving ++ [now])

/-- The `rateLimitStore` Map, as an association list from keys (client IPs)
to timestamp lists. -/
abbrev Store := List (String × List Int)

/-- `rateLimitStore.get(ip)`, with the lazily-created empty entry of
trigger-call.js lines 11-15: a missing key reads as `[]`. -/
def Store.find : Store → String → List Int
  | [], _ => []
  | (k, v) :: rest, key => if k = key then v else Store.find rest key

/-- Writing one key's timestamp list back (the in-place mutation of the entry
obtained from `rateLimitStore.get`, or `rateLimitStore.set` for a new key). -/
def Store.put : Store → String → List Int → Store
  | [], key, v => [(key, v)]
  | (k, w) :: rest, key, v =>
      if k = key then (k, v) :: rest else (k, w) :: Store.put rest key v

/-- `checkRateLimit(ip, ...)` acting on the whole store. -/
def checkRateLimitOn (store : Store) (ip : String) (now : Int)
    (maxRequests : Int) (windowMs : Int) : AdmitResult × Store :=
  let r := checkRateLimit (Store.find store ip) now maxRequests windowMs
  (r.1, Store.put store ip r.2)

/-- The JSON request body `{phone_number, business_name, owner_name,
password_hash}`; an absent field is `none`. -/
structure Body where
  phone_number : Option String
  business_name : Option String
  owner_name : Option String
  password_hash : Option String
deriving DecidableEq

/-- The environment variables the handlers read (`process.env.*`); an unset
variable is `none`. -/
structure Env where
  ACCESS_PASSWORD_HASH : Option String
  ELEVENLABS_API_KEY : Option String
  ELEVENLABS_AGENT_ID : Option String
  ELEVENLABS_PHONE_NUMBER_ID : Option String
deriving DecidableEq

/-- The fields of the parsed upstream (ElevenLabs) response body that the
handlers read. -/
structure UpstreamData where
  detail : Option String
  conversation_id : Option String
  call_id : Option String
deriving DecidableEq

/-- What the upstream round trip produced: an HTTP response whose body parsed
to JSON, or a thrown error (network/transport failure, or a JSON parse
failure) carrying the `Error`'s `message` and `stack`. -/
inductive UpstreamResult where
  | response (status : Int) (data : UpstreamData)
  | failure (message : String) (stack : String)
deriving DecidableEq

/-- The fields a response JSON body may carry across the three handler
revisions; an absent field is `none`.  `callStatus` models the JSON key
`status` (the HTTP status lives on `Response`), and `rateLimitResetTime`
holds the raw epoch-milliseconds value that the README revision renders as
an ISO-8601 string (`new Date(...).toISOString()`, presentation only). -/
structure RespBody where
  success : Option Bool
  error : Option String
  stack : Option String
  missing : Option (List String)
  conversation_id : Option String
  callStatus : Option String
  message : Option String
  retryAfter : Option Int
  rateLimitRemaining : Option Int
  rateLimitResetTime : Option Int
deriving DecidableEq

/-- The body with every field absent. -/
def RespBody.empty : RespBody :=
  ⟨none, none, none, none, none, none, none, none, none, none⟩

/-- An HTTP response as the handlers build it: status code, optional JSON
body (`none` models `res.end()` with no body), and the `Retry-After` header
when one is set. -/
structure Response where
  status : Int
  body : Option RespBody
  retryAfterHeader : Option String
deriving DecidableEq

/-- `res.status(s).json({success: false, error: msg})`. -/
def errResponse (status : Int) (msg : String) : Response :=
  ⟨status, some { RespBody.empty with success := some false, error := some msg }, none⟩

/-- The preflight reply `res.status(200).end()`: 200 with no body. -/
def preflightResponse : Response := ⟨200, none, none⟩

/-- The character test of `/^\+1\d{10}$/` on a character list: a `+`, a `1`,
then exactly ten ASCII digits (`\d` is `[0-9]`). -/
def phoneChars : List Char → Bool
  | c1 :: c2 :: digits =>
      c1 == '+' && c2 == '1' && digits.length == 10 && digits.all Char.isDigit
  | _ => false

/-- `/^\+1\d{10}$/.test(s)` (trigger-call.js line 80, README's
`validatePhoneNumber`). -/
def phoneRegexTest (s : String) : Bool := phoneChars s.data

/-- `phoneRegex.test(phone_number)` on a possibly-`undefined` value: an
`undefined` argument is stringified to `"undefined"`, which fails the
anchored pattern. -/
def testPhone : Option String → Bool
  | none => false
  | some s => phoneRegexTest s

/-- A character of the class `[a-f0-9]` under the `i` flag. -/
def isHexChar (c : Char) : Bool :=
  c.isDigit || ('a' ≤ c && c ≤ 'f') || ('A' ≤ c && c ≤ 'F')

/-- README `validatePasswordHash`: `/^[a-f0-9]{64}$/i.test(hash)` — exactly
64 case-insensitive hex characters (an `undefined` argument stringifies to
`"undefined"`, which fails). -/
def validatePasswordHash : Option String → Bool
  | none => false
  | some s => s.length == 64 && s.data.all isHexChar

/-- README `validatePhoneNumber`, the same anchored regex as
trigger-call.js. -/
def validatePhoneNumber (phone : Option String) : Bool := testPhone phone

/-- README `validateBusinessName`: `name && name.trim().length >= 2`
(the truthy value is coerced to a boolean at the `if`). -/
def validateBusinessName (name : Option String) : Bool :=
  !(jsFalsy name) && decide (2 ≤ ((jsTrim (name.getD "")).length : Int))

/-- The password rejection condition of trigger-call.js line 75:
`!password_hash || password_hash.toLowerCase() !==
process.env.ACCESS_PASSWORD_HASH?.toLowerCase()`.  When the environment
variable is unset, the optional chain yields `undefined` and the strict
comparison against a string is always a mismatch. -/
def passwordRejected (password_hash expected : Option String) : Bool :=
  match password_hash with
  | none => true
  | some p =>
    if p == "" then true
    else match expected with
      | none => true
      | some e => !(jsToLower p == jsToLower e)

/-- `response.ok`: status in the range 200-299. -/
def jsOk (status : Int) : Bool := decide (200 ≤ status) && decide (status < 300)

/-- JavaScript string interpolation of a possibly-`undefined` value inside a
template literal: `undefined` renders as `"undefined"`. -/
def jsInterp (s : Option String) : String := s.getD "undefined"

/-- The `fetch` call and upstream error mapping of trigger-call.js lines
107-133: `Except.error m` models a thrown `Error` with message `m` (the 404
and 401 branches throw fixed messages; any other non-ok status throws
`data.detail || 'ElevenLabs error: <status>'`; a transport/parse failure
propagates its own message). -/
def triggerCallUpstream (up : UpstreamResult) : Except String UpstreamData :=
  match up with
  | .failure m _ => .error m
  | .response status data =>
    if jsOk status then .ok data
    else if status == 404 then
      .error "Agent not found. Check if agent is published and phone is enabled."
    else if status == 401 then .error "Invalid API key"
    else .error (jsInterp (jsOrElse data.detail (some ("ElevenLabs error: " ++ toString status))))

/-- The 429 reply of trigger-call.js lines 62-68: `Retry-After` header plus
`{success: false, error}` with the interpolated seconds value. -/
def rateLimited429 (retry : Int) : Response where
  status := 429
  body := some { RespBody.empty with
    success := some false,
    error := some ("Too many requests. Try again in " ++ toString retry ++ "s.") }
  retryAfterHeader := some (toString retry)

/-- The 200 reply of trigger-call.js lines 135-140. -/
def triggerCallSuccess (data : UpstreamData) (business_name : Option String) : Response where
  status := 200
  body := some { RespBody.empty with
    success := some true,
    conversation_id := jsOrElse data.conversation_id data.call_id,
    callStatus := some "initiated",
    message := some ("Demo call started to " ++ jsInterp business_name) }
  retryAfterHeader := none

/-- The handler of src/api/trigger-call.js (module.exports, lines 41-149).
`clientIp` is the value the header/socket chain of lines 42-45 produced; the
result is the response, the rate-limit store afterwards, and whether the
upstream `fetch` was reached.  `error.message || 'Server error'` in the
catch is the empty-message fallback. -/
def triggerCallHandler (clientIp : String) (method : String) (body : Body)
    (env : Env) (store : Store) (now : Int) (up : UpstreamResult) :
    Response × Store × Bool :=
  if method = "OPTIONS" then
    (preflightResponse, store, false)
  else if method ≠ "POST" then
    (errResponse 405 "Method not allowed", store, false)
  else
    let rl := checkRateLimitOn store clientIp now 10 60000
    if rl.1.allowed = false then
      (rateLimited429 (rl.1.retryAfter.getD 0), rl.2, false)
    else if passwordRejected body.password_hash env.ACCESS_PASSWORD_HASH then
      (errResponse 401 "Invalid password", rl.2, false)
    else if !(testPhone body.phone_number) then
      (errResponse 400 "Invalid phone format. Use +1XXXXXXXXXX", rl.2, false)
    else if jsFalsy body.business_name
        || decide (((jsTrim (body.business_name.getD "")).length : Int) < 2) then
      (errResponse 400 "Business name required (min 2 chars)", rl.2, false)
    else if jsFalsy env.ELEVENLABS_API_KEY || jsFalsy env.ELEVENLABS_AGENT_ID then
      (errResponse 500 "Server configuration error", rl.2, false)
    else
      match triggerCallUpstream up with
      | .ok data => (triggerCallSuccess data body.business_name, rl.2, true)
      | .error msg =>
        (errResponse 500 (if msg == "" then "Server error" else msg), rl.2, true)

/-- README `triggerElevenLabsCall` (its lines 420-475): throws on missing
configuration, then maps upstream failures to thrown messages — 401, 429 and
402 to fixed texts, 400 and the default case to `data.detail ||` a generic
text.  `Except.error m` models a thrown `Error` with message `m`. -/
def readmeUpstream (env : Env) (up : UpstreamResult) : Except String UpstreamData :=
  if jsFalsy env.ELEVENLABS_API_KEY then .error "ELEVENLABS_API_KEY not configured"
  else if jsFalsy env.ELEVENLABS_AGENT_ID then .error "ELEVENLABS_AGENT_ID not configured"
  else
    match up with
    | .failure m _ => .error m
    | .response status data =>
      if jsOk status then .ok data
      else if status == 401 then .error "Invalid API key. Check configuration."
      else if status == 429 then .error "Rate limit exceeded. Please try again later."
      else if status == 402 then .error "Insufficient credit balance."
      else if status == 400 then
        .error (jsInterp (jsOrElse data.detail (some "Invalid request to ElevenLabs API")))
      else
        .error (jsInterp (jsOrElse data.detail (some ("ElevenLabs API error: " ++ toString status))))

/-- JavaScript `s.includes(sub)`: substring containment. -/
def strIncludes (s sub : String) : Bool := decide (sub.data <:+: s.data)

/-- README catch-block status selection (its lines 660-666): the first
matching substring of the thrown message picks the status, default 500. -/
def readmeCatchStatus (message : String) : Int :=
  if strIncludes message "Invalid API key" then 401
  else if strIncludes message "Rate limit" then 429
  else if strIncludes message "Insufficient credit" then 402
  else if strIncludes message "Invalid request" then 400
  else 500

/-- The 429 reply of the README revision (its lines 505-514): header,
message and a `retryAfter` body field. -/
def readmeRateLimited429 (retry : Int) : Response where
  status := 429
  body := some { RespBody.empty with
    success := some false,
    error := some ("Too many requests. Please try again in " ++ toString retry ++ " seconds."),
    retryAfter := some retry }
  retryAfterHeader := some (toString retry)

/-- The 200 reply of the README revision (its lines 600-611), with the
rate-limit info block (`resetTime` kept as raw epoch milliseconds; the
source renders it as an ISO string). -/
def readmeSuccess (data : UpstreamData) (business_name : Option String)
    (rl : AdmitResult) : Response where
  status := 200
  body := some { RespBody.empty with
    success := some true,
    conversation_id := jsOrElse data.conversation_id data.call_id,
    callStatus := some "initiated",
    message := some ("Demo call initiated to " ++ jsInterp business_name),
    rateLimitRemaining := some rl.remaining,
    rateLimitResetTime := some rl.resetTime }
  retryAfterHeader := none

/-- The handler revision embedded in src/README.md (its lines 477-670):
method check, rate limit, then the validation pipeline — missing
`password_hash`, `validatePasswordHash` (64-hex format), missing
configuration secret, case-insensitive hash comparison, missing/invalid
phone, missing/invalid business name — then the upstream call, whose thrown
message is mapped back to a status by `readmeCatchStatus`.
`error.message ||` falls back to the fixed text on an empty message. -/
def readmeHandler (clientIp : String) (method : String) (body : Body)
    (env : Env) (store : Store) (now : Int) (up : UpstreamResult) :
    Response × Store × Bool :=
  if method = "OPTIONS" then
    (preflightResponse, store, false)
  else if method ≠ "POST" then
    (errResponse 405 "Method not allowed. Use POST.", store, false)
  else
    let rl := checkRateLimitOn store clientIp now 10 60000
    if rl.1.allowed = false then
      (readmeRateLimited429 (rl.1.retryAfter.getD 0), rl.2, false)
    else if jsFalsy body.password_hash then
      (errResponse 401 "Authentication required. Password hash missing.", rl.2, false)
    else if !(validatePasswordHash body.password_hash) then
      (errResponse 401 "Invalid password hash format.", rl.2, false)
    else if jsFalsy env.ACCESS_PASSWORD_HASH then
      (errResponse 500 "Server configuration error. Contact administrator.", rl.2, false)
    else if !(jsToLower (body.password_hash.getD "") == jsToLower (env.ACCESS_PASSWORD_HASH.getD "")) then
      (errResponse 401 "Invalid password. Access denied.", rl.2, false)
    else if jsFalsy body.phone_number then
      (errResponse 400 "Phone number is required.", rl.2, false)
    else if !(validatePhoneNumber body.phone_number) then
      (errResponse 400 "Invalid phone number format. Use +1XXXXXXXXXX (E.164 format).", rl.2, false)
    else if jsFalsy body.business_name then
      (errResponse 400 "Business name is required.", rl.2, false)
    else if !(validateBusinessName body.business_name) then
      (errResponse 400 "Business name must be at least 2 characters.", rl.2, false)
    else
      match readmeUpstream env up with
      | .ok data => (readmeSuccess data body.business_name rl.1, rl.2, true)
      | .error msg =>
        (errResponse (readmeCatchStatus msg)
          (if msg == "" then "An unexpected error occurred. Please try again." else msg),
         rl.2, true)

/-- A response body of the part_000 revision: it never includes a `success`
field on errors, only `{error: ...}` (plus `missing` or `stack` where the
source adds them). -/
def part000Err (msg : String) : Response :=
  ⟨500, some { RespBody.empty with error := some msg }, none⟩

/-- `Object.keys(envStatus).filter(k => !envStatus[k])` of part_000 lines
33-38, with `PASSWORD_HASH` already known to be set at that point. -/
def part000Missing (env : Env) : List String :=
  (if jsFalsy env.ELEVENLABS_API_KEY then ["API_KEY"] else [])
    ++ (if jsFalsy env.ELEVENLABS_AGENT_ID then ["AGENT_ID"] else [])
    ++ (if jsFalsy env.ELEVENLABS_PHONE_NUMBER_ID then ["PHONE_ID"] else [])

/-- The handler of src/unnamed/part_000 (lines 3-95): CORS preflight, then —
with no method gate and no rate limiting — the `PASSWORD_HASH not set`
check, the password comparison (`password_hash?.toLowerCase() !==
expected.toLowerCase()`), the remaining env checks, the upstream call, its
status passed through when not 200, and a catch that returns
`{error: err.message, stack: err.stack}`.  The result is the response and
whether the upstream request was reached. -/
def part000Handler (method : String) (body : Body) (env : Env)
    (up : UpstreamResult) : Response × Bool :=
  if method = "OPTIONS" then
    (preflightResponse, false)
  else if jsFalsy env.ACCESS_PASSWORD_HASH then
    (part000Err "PASSWORD_HASH not set", false)
  else if !(body.password_hash.map jsToLower
      == some (jsToLower (env.ACCESS_PASSWORD_HASH.getD ""))) then
    (⟨401, some { RespBody.empty with error := some "Wrong password" }, none⟩, false)
  else if jsFalsy env.ELEVENLABS_API_KEY || jsFalsy env.ELEVENLABS_AGENT_ID
      || jsFalsy env.ELEVENLABS_PHONE_NUMBER_ID then
    (⟨500, some { RespBody.empty with
        error := some "Missing env vars",
        missing := some (part000Missing env) }, none⟩, false)
  else
    match up with
    | .failure m st =>
      (⟨500, some { RespBody.empty with error := some m, stack := some st }, none⟩, true)
    | .response status data =>
      if status ≠ 200 then
        (⟨status, some { RespBody.empty with
            error := some (jsInterp (jsOrElse data.detail
              (some ("API error: " ++ toString status)))) }, none⟩, true)
      else
        (⟨200, some { RespBody.empty with
            success := some true,
            conversation_id := data.conversation_id,
            message := some ("Call started to " ++ jsInterp body.business_name) },
          none⟩, true)

/-! ## Helper lemmas -/

/-- `ceilDiv1000` is the round-up to whole seconds: the unique integer `r`
with `1000 * (r - 1) < x ≤ 1000 * r`. -/
theorem ceilDiv1000_bounds (x : Int) :
    1000 * (ceilDiv1000 x - 1) < x ∧ x ≤ 1000 * ceilDiv1000 x := by
  have h0 : ceilDiv1000 x = -((-x) / 1000) := by
    simp [ceilDiv1000, Int.fdiv_eq_ediv _ (by norm_num : (0 : Int) ≤ 1000)]
  omega

/-- `Store.put` followed by `Store.find` at the same key reads the value
just written. -/
theorem Store.find_put (store : Store) (key : String) (v : List Int) :
    Store.find (Store.put store key v) key = v := by
  induction store with
  | nil => simp [Store.put, Store.find]
  | cons hd tl ih =>
    obtain ⟨k, w⟩ := hd
    by_cases hk : k = key
    · simp [Store.put, Store.find, hk]
    · simp [Store.put, Store.find, hk, ih]

/-! ## C1 — the admit function of the sliding-window rate limiter -/

/-- C1: one call to `checkRateLimit` first drops every stored timestamp
`≤ now − windowMs`; if the surviving count is `≥ maxRequests` it rejects,
with `retryAfter` the round-up to whole seconds of the oldest surviving
timestamp plus `windowMs` minus `now` (and `remaining = 0`); otherwise it
appends `now` and accepts, reporting `maxRequests − count` as remaining,
where `count` is the stored count including the appended `now`. -/
theorem checkRateLimit_admit_spec (requests : List Int)
    (now maxRequests windowMs : Int) :
    ((checkRateLimit requests now maxRequests windowMs).2 =
        requests.filter (fun t => decide (now - windowMs < t))
          ++ (if (checkRateLimit requests now maxRequests windowMs).1.allowed
              then [now] else []))
    ∧ ((checkRateLimit requests now maxRequests windowMs).1.allowed = false ↔
        maxRequests ≤ ((requests.filter (fun t => decide (now - windowMs < t))).length : Int))
    ∧ (∀ t0 rest, requests.filter (fun t => decide (now - windowMs < t)) = t0 :: rest →
        (checkRateLimit requests now maxRequests windowMs).1.allowed = false →
        (checkRateLimit requests now maxRequests windowMs).1.remaining = 0 ∧
        ∃ r, (checkRateLimit requests now maxRequests windowMs).1.retryAfter = some r ∧
          1000 * (r - 1) < t0 + windowMs - now ∧ t0 + windowMs - now ≤ 1000 * r)
    ∧ ((checkRateLimit requests now maxRequests windowMs).1.allowed = true →
        (checkRateLimit requests now maxRequests windowMs).1.remaining =
          maxRequests - (((requests.filter (fun t => decide (now - windowMs < t))).length : Int) + 1)) := by
  by_cases hc : maxRequests ≤ ((requests.filter (fun t => decide (now - windowMs < t))).length : Int)
  · refine ⟨?_, ?_, ?_, ?_⟩
    · simp [checkRateLimit, pruneRequests, hc]
    · simp [checkRateLimit, pruneRequests, hc]
    · intro t0 rest hfil _
      constructor
      · simp [checkRateLimit, pruneRequests, hc]
      · refine ⟨ceilDiv1000 (t0 + windowMs - now), ?_,
          (ceilDiv1000_bounds _).1, (ceilDiv1000_bounds _).2⟩
        have hc2 : maxRequests ≤ (rest.length : Int) + 1 := by
          rw [hfil] at hc
          simp only [List.length_cons] at hc
          push_cast at hc
          omega
        simp [checkRateLimit, pruneRequests, hfil, hc2]
    · intro htrue
      simp [checkRateLimit, pruneRequests, hc] at htrue
  · refine ⟨?_, ?_, ?_, ?_⟩
    · simp [checkRateLimit, pruneRequests, hc]
    · simp [checkRateLimit, pruneRequests, hc]
    · intro t0 rest _ hfalse
      simp [checkRateLimit, pruneRequests, hc] at hfalse
    · intro _
      simp [checkRateLimit, pruneRequests, hc]

/-! ## C8 — stored timestamps stay strictly inside the trailing window -/

/-- C8: after any call to the rate limiter, the timestamp sequence stored for
the accessed key contains only timestamps strictly greater than
`now − windowMs`: stale entries are pruned on every access. -/
theorem stored_timestamps_in_window (store : Store) (key : String)
    (now maxRequests windowMs : Int) (hw : 0 < windowMs) :
    ∀ t ∈ Store.find (checkRateLimitOn store key now maxRequests windowMs).2 key,
      now - windowMs < t := by
  intro t ht
  rw [checkRateLimitOn] at ht
  simp only [Store.find_put] at ht
  by_cases hc : maxRequests ≤
      (((Store.find store key).filter (fun t => decide (now - windowMs < t))).length : Int)
  · simp [checkRateLimit, pruneRequests, hc] at ht
    exact ht.2
  · simp [checkRateLimit, pruneRequests, hc] at ht
    rcases ht with ⟨_, h⟩ | rfl
    · exact h
    · omega

/-- Witness for C8 at a concrete store and call. -/
theorem stored_timestamps_in_window_witness : (100 : Int) - 60000 < 100 :=
  stored_timestamps_in_window [("ip", [-600000, 90])] "ip" 100 10 60000 (by decide)
    100 (by decide)

/-! ## C9 — OPTIONS preflight: 200, empty body, no rate-limit slot -/

/-- C9: an OPTIONS request always yields 200 with no body, leaves the
rate-limit store untouched and never reaches the upstream call, whatever the
prior state; hence repeating OPTIONS requests (at any later time, against
the state the first one left) always produces the same result. -/
theorem options_preflight_idempotent (key : String) (body body' : Body)
    (env env' : Env) (store : Store) (now now' : Int) (up up' : UpstreamResult) :
    triggerCallHandler key "OPTIONS" body env store now up
      = (preflightResponse, store, false)
    ∧ (triggerCallHandler key "OPTIONS" body' env'
        (triggerCallHandler key "OPTIONS" body env store now up).2.1 now' up').1
      = (triggerCallHandler key "OPTIONS" body env store now up).1 := by
  constructor
  · simp [triggerCallHandler]
  · simp [triggerCallHandler]

/-! ## C10 — the rate-limit slot is consumed regardless of outcome -/

/-- C10: on a POST request the store the handler leaves behind is exactly the
store produced by the rate-limit admission step — no later authentication or
validation failure (nor the upstream outcome) changes it, as witnessed by its
independence from the body, the environment and the upstream result — and on
admission `now` has been appended to the caller's pruned sequence. -/
theorem rate_limit_slot_consumed (key : String) (body body' : Body)
    (env env' : Env) (store : Store) (now : Int) (up up' : UpstreamResult) :
    ((triggerCallHandler key "POST" body env store now up).2.1
        = (checkRateLimitOn store key now 10 60000).2)
    ∧ ((triggerCallHandler key "POST" body env store now up).2.1
        = (triggerCallHandler key "POST" body' env' store now up').2.1)
    ∧ ((checkRateLimitOn store key now 10 60000).1.allowed = true →
        Store.find (checkRateLimitOn store key now 10 60000).2 key
          = (Store.find store key).filter (fun t => decide (now - 60000 < t)) ++ [now]) := by
  have hframe : ∀ (b : Body) (e : Env) (u : UpstreamResult),
      (triggerCallHandler key "POST" b e store now u).2.1
        = (checkRateLimitOn store key now 10 60000).2 := by
    intro b e u
    simp only [triggerCallHandler]
    rw [if_neg (by decide), if_neg (by decide)]
    split_ifs <;> first
      | rfl
      | (rcases triggerCallUpstream u with d | m <;> rfl)
  refine ⟨hframe body env up, (hframe body env up).trans (hframe body' env' up').symm, ?_⟩
  intro hallow
  rw [checkRateLimitOn] at hallow ⊢
  simp only [Store.find_put]
  by_cases hc : (10 : Int) ≤
      (((Store.find store key).filter (fun t => decide (now - 60000 < t))).length : Int)
  · simp [checkRateLimit, pruneRequests, hc] at hallow
  · simp [checkRateLimit, pruneRequests, hc]

/-! ## C2 — a full window rejects the next call with a positive retry time -/

/-- C2: with `maxRequests` admitted timestamps stored for a key, all inside
the trailing window (and none in the future), the next call is rejected and
`retryAfterSeconds > 0`; in particular with the handler's `maxRequests = 10`
and `windowMs = 60000`, the 11th POST inside 60 seconds yields HTTP 429 with
a `Retry-After` header whose value is between 1 and 60 inclusive. -/
theorem eleventh_request_rejected (ts : List Int) (now maxRequests windowMs : Int)
    (hmax : 0 < maxRequests)
    (hlen : (ts.length : Int) = maxRequests)
    (hin : ∀ t ∈ ts, now - windowMs < t)
    (hle : ∀ t ∈ ts, t ≤ now) :
    ((checkRateLimit ts now maxRequests windowMs).1.allowed = false
      ∧ ∃ r, (checkRateLimit ts now maxRequests windowMs).1.retryAfter = some r ∧ 0 < r)
    ∧ (∀ (key : String) (body : Body) (env : Env) (store : Store) (up : UpstreamResult),
        maxRequests = 10 → windowMs = 60000 → Store.find store key = ts →
        (triggerCallHandler key "POST" body env store now up).1.status = 429
        ∧ ∃ r : Int, (triggerCallHandler key "POST" body env store now up).1.retryAfterHeader
              = some (toString r)
            ∧ 1 ≤ r ∧ r ≤ 60) := by
  have hfil : ts.filter (fun t => decide (now - windowMs < t)) = ts :=
    List.filter_eq_self.mpr (fun a ha => decide_eq_true (hin a ha))
  obtain ⟨t0, rest, rfl⟩ : ∃ t0 rest, ts = t0 :: rest := by
    cases ts with
    | nil => simp at hlen; omega
    | cons a l => exact ⟨a, l, rfl⟩
  have ht0 : t0 ∈ t0 :: rest := List.mem_cons_self t0 rest
  have hx0 : 0 < t0 + windowMs - now := by have := hin t0 ht0; omega
  have hx1 : t0 + windowMs - now ≤ windowMs := by have := hle t0 ht0; omega
  have hcond : maxRequests ≤ (((t0 :: rest).filter
      (fun t => decide (now - windowMs < t))).length : Int) := by
    rw [hfil]; omega
  have hc2 : maxRequests ≤ (rest.length : Int) + 1 := by
    rw [hfil] at hcond
    simp only [List.length_cons] at hcond
    push_cast at hcond
    omega
  have heq : checkRateLimit (t0 :: rest) now maxRequests windowMs =
      ({ allowed := false, remaining := 0, resetTime := t0 + windowMs,
         retryAfter := some (ceilDiv1000 (t0 + windowMs - now)) }, t0 :: rest) := by
    simp [checkRateLimit, pruneRequests, hfil, hc2]
  have hr := ceilDiv1000_bounds (t0 + windowMs - now)
  constructor
  · rw [heq]
    exact ⟨rfl, ceilDiv1000 (t0 + windowMs - now), rfl, by omega⟩
  · intro key body env store up h10 h60 hstore
    subst h10
    subst h60
    have hhandler : triggerCallHandler key "POST" body env store now up =
        (rateLimited429 (ceilDiv1000 (t0 + 60000 - now)),
          Store.put store key (t0 :: rest), false) := by
      simp only [triggerCallHandler]
      rw [if_neg (by decide), if_neg (by decide)]
      simp [checkRateLimitOn, hstore, heq]
    rw [hhandler]
    exact ⟨rfl, ceilDiv1000 (t0 + 60000 - now), rfl, by omega, by omega⟩

/-- Witness for C2: a store holding ten timestamps inside the window; the
11th POST is answered 429. -/
theorem eleventh_request_rejected_witness :
    (triggerCallHandler "ip" "POST" ⟨none, none, none, none⟩ ⟨none, none, none, none⟩
        [("ip", [0, 0, 0, 0, 0, 0, 0, 0, 0, 0])] 5 (.failure "" "")).1.status = 429 :=
  ((eleventh_request_rejected [0, 0, 0, 0, 0, 0, 0, 0, 0, 0] 5 10 60000 (by decide)
      (by decide) (by decide) (by decide)).2 "ip" ⟨none, none, none, none⟩
      ⟨none, none, none, none⟩ [("ip", [0, 0, 0, 0, 0, 0, 0, 0, 0, 0])]
      (.failure "" "") rfl rfl (by decide)).1

/-! ## C7 — the phone validator accepts exactly +1 followed by ten digits -/

/-- Characterization of the anchored phone pattern on character lists. -/
theorem phoneChars_iff (l : List Char) :
    phoneChars l = true ↔
      ∃ digits : List Char, l = '+' :: '1' :: digits ∧ digits.length = 10
        ∧ ∀ c ∈ digits, c.isDigit = true := by
  cases l with
  | nil => simp [phoneChars]
  | cons c1 t =>
    cases t with
    | nil => simp [phoneChars]
    | cons c2 digits =>
      simp only [phoneChars, Bool.and_eq_true, beq_iff_eq, List.all_eq_true]
      constructor
      · rintro ⟨⟨⟨rfl, rfl⟩, hlen⟩, hall⟩
        exact ⟨digits, rfl, Nat.beq_eq_true_eq _ _ ▸ hlen, hall⟩
      · rintro ⟨ds, heq, hlen, hall⟩
        obtain ⟨rfl, rfl, rfl⟩ : c1 = '+' ∧ c2 = '1' ∧ digits = ds := by
          simpa using heq
        exact ⟨⟨⟨rfl, rfl⟩, by simpa using hlen⟩, hall⟩

/-- C7: `phoneRegexTest` accepts exactly the strings `+1` followed by ten
ASCII digits; `+14805551234` passes while `4805551234`, `+1480555123` and
`+1abc5551234` fail, and a POST submitting each failing number (with a valid
credential) is answered with the 400 invalid-phone response. -/
theorem phone_validator_spec :
    (∀ s : String, phoneRegexTest s = true ↔
        ∃ digits : List Char, s.data = '+' :: '1' :: digits ∧ digits.length = 10
          ∧ ∀ c ∈ digits, c.isDigit = true)
    ∧ phoneRegexTest "+14805551234" = true
    ∧ phoneRegexTest "4805551234" = false
    ∧ phoneRegexTest "+1480555123" = false
    ∧ phoneRegexTest "+1abc5551234" = false
    ∧ (triggerCallHandler "ip" "POST" ⟨some "4805551234", some "Acme", none, some "abc"⟩
        ⟨some "ABC", some "k", some "g", some "p"⟩ [] 0 (.failure "" "")).1
        = errResponse 400 "Invalid phone format. Use +1XXXXXXXXXX"
    ∧ (triggerCallHandler "ip" "POST" ⟨some "+1480555123", some "Acme", none, some "abc"⟩
        ⟨some "ABC", some "k", some "g", some "p"⟩ [] 0 (.failure "" "")).1
        = errResponse 400 "Invalid phone format. Use +1XXXXXXXXXX"
    ∧ (triggerCallHandler "ip" "POST" ⟨some "+1abc5551234", some "Acme", none, some "abc"⟩
        ⟨some "ABC", some "k", some "g", some "p"⟩ [] 0 (.failure "" "")).1
        = errResponse 400 "Invalid phone format. Use +1XXXXXXXXXX" := by
  refine ⟨fun s => phoneChars_iff s.data, by decide, by decide, by decide, by decide,
    ?_, ?_, ?_⟩ <;> decide

/-! ## C6 — fixed validator order in the revision with the 64-hex format check -/

/-- A credential that passes the 64-hex format check is not falsy. -/
theorem validatePasswordHash_not_falsy (o : Option String)
    (h : validatePasswordHash o = true) : jsFalsy o = false := by
  cases o with
  | none => simp [validatePasswordHash] at h
  | some s =>
    simp only [validatePasswordHash, Bool.and_eq_true] at h
    simp only [jsFalsy]
    rw [beq_eq_false_iff_ne]
    rintro rfl
    simp at h

/-- C6: in the README revision (the one whose credential validator checks the
64-hex token format), the validators run in a fixed order — credential
format, then phone number, then business name — the first failure determines
the reported error, a credential-format failure is answered 401 while phone
and business-name failures are answered 400, and the three failure messages
are pairwise distinct. -/
theorem validators_fixed_order (key : String) (body : Body) (env : Env)
    (store : Store) (now : Int) (up : UpstreamResult)
    (hallowed : (checkRateLimitOn store key now 10 60000).1.allowed = true) :
    (validatePasswordHash body.password_hash = false →
      (readmeHandler key "POST" body env store now up).1
        = (if jsFalsy body.password_hash then
            errResponse 401 "Authentication required. Password hash missing."
           else errResponse 401 "Invalid password hash format."))
    ∧ (validatePasswordHash body.password_hash = true →
        jsFalsy env.ACCESS_PASSWORD_HASH = false →
        jsToLower (body.password_hash.getD "")
          = jsToLower (env.ACCESS_PASSWORD_HASH.getD "") →
        validatePhoneNumber body.phone_number = false →
        (readmeHandler key "POST" body env store now up).1
          = (if jsFalsy body.phone_number then
              errResponse 400 "Phone number is required."
             else errResponse 400 "Invalid phone number format. Use +1XXXXXXXXXX (E.164 format)."))
    ∧ (validatePasswordHash body.password_hash = true →
        jsFalsy env.ACCESS_PASSWORD_HASH = false →
        jsToLower (body.password_hash.getD "")
          = jsToLower (env.ACCESS_PASSWORD_HASH.getD "") →
        validatePhoneNumber body.phone_number = true →
        validateBusinessName body.business_name = false →
        (readmeHandler key "POST" body env store now up).1
          = (if jsFalsy body.business_name then
              errResponse 400 "Business name is required."
             else errResponse 400 "Business name must be at least 2 characters."))
    ∧ ("Invalid password hash format." ≠
        "Invalid phone number format. Use +1XXXXXXXXXX (E.164 format).")
    ∧ ("Invalid phone number format. Use +1XXXXXXXXXX (E.164 format)." ≠
        "Business name must be at least 2 characters.")
    ∧ ("Invalid password hash format." ≠ "Business name must be at least 2 characters.") := by
  refine ⟨?_, ?_, ?_, by decide, by decide, by decide⟩
  · intro hv
    by_cases hf : jsFalsy body.password_hash = true
    · simp [readmeHandler, hallowed, hf]
    · simp only [Bool.not_eq_true] at hf
      simp [readmeHandler, hallowed, hf, hv]
  · intro hv henv hmatch hphone
    have hf := validatePasswordHash_not_falsy _ hv
    by_cases hp : jsFalsy body.phone_number = true
    · simp [readmeHandler, hallowed, hf, hv, henv, hmatch, hp]
    · simp only [Bool.not_eq_true] at hp
      simp [readmeHandler, hallowed, hf, hv, henv, hmatch, hp, hphone]
  · intro hv henv hmatch hphone hbiz
    have hf := validatePasswordHash_not_falsy _ hv
    have hp : jsFalsy body.phone_number = false := by
      cases hx : body.phone_number with
      | none => rw [hx] at hphone; simp [validatePhoneNumber, testPhone] at hphone
      | some s =>
        simp only [jsFalsy, beq_eq_false_iff_ne]
        rintro rfl
        rw [hx] at hphone
        simp [validatePhoneNumber, testPhone, phoneRegexTest, phoneChars] at hphone
    by_cases hb : jsFalsy body.business_name = true
    · simp [readmeHandler, hallowed, hf, hv, henv, hmatch, hp, hphone, hb]
    · simp only [Bool.not_eq_true] at hb
      simp [readmeHandler, hallowed, hf, hv, henv, hmatch, hp, hphone, hb, hbiz]

/-- Witness for C6: a malformed credential token is answered 401 with the
format message, at a concrete request. -/
theorem validators_fixed_order_witness :
    (readmeHandler "ip" "POST" ⟨some "+14805551234", some "Acme", none, some "xyz"⟩
        ⟨some "a", some "k", some "g", some "p"⟩ [] 0 (.failure "" "")).1
      = errResponse 401 "Invalid password hash format." := by
  simpa [jsFalsy] using
    (validators_fixed_order "ip" ⟨some "+14805551234", some "Acme", none, some "xyz"⟩
      ⟨some "a", some "k", some "g", some "p"⟩ [] 0 (.failure "" "") (by decide)).1 (by decide)

/-! ## C3 — behavior when the expected credential token is not configured -/

/-- C3 (code bug in src/api/trigger-call.js): with `ACCESS_PASSWORD_HASH`
unset, a POST with a valid body is answered 401 "Invalid password" — not the
500 server-configuration error the spec and the repository's own README
revision prescribe — though it is still never allowed through to the
upstream call.  The README revision (given a well-formed 64-hex token) and
the unnamed revision do answer 500 without reaching upstream. -/
theorem missing_secret_behavior :
    ((triggerCallHandler "ip" "POST" ⟨some "+14805551234", some "Acme", none, some "abc"⟩
        ⟨none, some "k", some "g", some "p"⟩ [] 0 (.failure "" "")).1
      = errResponse 401 "Invalid password")
    ∧ ((triggerCallHandler "ip" "POST" ⟨some "+14805551234", some "Acme", none, some "abc"⟩
        ⟨none, some "k", some "g", some "p"⟩ [] 0 (.failure "" "")).2.2 = false)
    ∧ ((readmeHandler "ip" "POST" ⟨some "+14805551234", some "Acme", none,
          some "aaaaaaaaaaaaaaaaaaaaaaaaaaaaaaaaaaaaaaaaaaaaaaaaaaaaaaaaaaaaaaaa"⟩
        ⟨none, some "k", some "g", some "p"⟩ [] 0 (.failure "" "")).1
      = errResponse 500 "Server configuration error. Contact administrator.")
    ∧ ((part000Handler "POST" ⟨some "+14805551234", some "Acme", none, some "abc"⟩
        ⟨none, some "k", some "g", some "p"⟩ (.failure "" "")).1
      = part000Err "PASSWORD_HASH not set")
    ∧ ((part000Handler "POST" ⟨some "+14805551234", some "Acme", none, some "abc"⟩
        ⟨none, some "k", some "g", some "p"⟩ (.failure "" "")).2 = false) := by
  refine ⟨by decide, by decide, by decide, by decide, by decide⟩

/-! ## C4 — gateway response when the upstream call returns HTTP 402 -/

/-- C4 (code bug in src/api/trigger-call.js): on an upstream 402 the deployed
handler answers a generic 500 (the thrown detail falls into the catch-all),
while the repository's own README revision maps it to 402 with the
insufficient-balance message and the unnamed revision passes the 402
through. -/
theorem upstream_402_behavior :
    ((triggerCallHandler "ip" "POST" ⟨some "+14805551234", some "Acme", none, some "abc"⟩
        ⟨some "ABC", some "k", some "g", some "p"⟩ [] 0
        (.response 402 ⟨some "Payment required", none, none⟩)).1
      = errResponse 500 "Payment required")
    ∧ ((readmeHandler "ip" "POST" ⟨some "+14805551234", some "Acme", none,
          some "aaaaaaaaaaaaaaaaaaaaaaaaaaaaaaaaaaaaaaaaaaaaaaaaaaaaaaaaaaaaaaaa"⟩
        ⟨some "aaaaaaaaaaaaaaaaaaaaaaaaaaaaaaaaaaaaaaaaaaaaaaaaaaaaaaaaaaaaaaaa",
          some "k", some "g", some "p"⟩ [] 0
        (.response 402 ⟨some "Payment required", none, none⟩)).1
      = errResponse 402 "Insufficient credit balance.")
    ∧ ((part000Handler "POST" ⟨some "+14805551234", some "Acme", none, some "abc"⟩
        ⟨some "ABC", some "k", some "g", some "p"⟩
        (.response 402 ⟨some "Payment required", none, none⟩)).1.status = 402) := by
  refine ⟨by decide, by decide, by decide⟩

/-! ## C5 — failure bodies: success flag, error string, stack traces -/

/-- C5 (code bug in src/unnamed/part_000): that revision's failure bodies
carry no `success:false` flag (e.g. a wrong password yields just
`{error: "Wrong password"}`), and its catch block returns the thrown error's
stack to the caller; the deployed handler's same failure keeps the uniform
`{success:false, error}` envelope with no stack. -/
theorem part000_error_bodies :
    ((part000Handler "POST" ⟨none, none, none, some "wrong"⟩
        ⟨some "pw", some "k", some "g", some "p"⟩ (.failure "" "")).1
      = ⟨401, some { RespBody.empty with error := some "Wrong password" }, none⟩)
    ∧ ((part000Handler "POST" ⟨some "+14805551234", some "Acme", none, some "pw"⟩
        ⟨some "pw", some "k", some "g", some "p"⟩
        (.failure "boom" "Error: boom at handler")).1
      = ⟨500, some { RespBody.empty with
          error := some "boom",
          stack := some "Error: boom at handler" }, none⟩)
    ∧ ((triggerCallHandler "ip" "POST" ⟨some "+14805551234", some "Acme", none, some "abc"⟩
        ⟨some "ABC", some "k", some "g", some "p"⟩ [] 0
        (.failure "boom" "Error: boom at handler")).1
      = errResponse 500 "boom") := by
  refine ⟨by decide, by decide, by decide⟩
